import Mathlib

set_option maxHeartbeats 1000000
set_option maxRecDepth 8192

namespace CurriculoApi

/-! Shallow embedding of the résumé-analysis API: `main.py` (the `/curriculo`
handler `analisar_curriculo` and the text-extraction helpers), `src/agente.py`
(the two LLM agent clients, modelled abstractly) and `src/database.py`
(`log_request`, the log sink).  External libraries — PyPDF2, EasyOCR, the LLM
SDK, MongoDB's `insert_one`, and Python's `uuid4`/`uuid5` — are not code of
this repository; they are modelled as abstract parameters gathered in `Env`,
while everything the repository itself computes is embedded concretely. -/

/-- Python's ASCII whitespace characters, as recognised by `str.strip()`. -/
def isPySpace (c : Char) : Bool :=
  c = ' ' || c = '\t' || c = '\n' || c = '\r' || c = Char.ofNat 11 || c = Char.ofNat 12

/-- Right strip: remove trailing whitespace. -/
def rstripL (s : List Char) : List Char := (s.reverse.dropWhile isPySpace).reverse

/-- Python `str.strip()` on a character list: trailing then leading whitespace. -/
def pyStripL (s : List Char) : List Char := (rstripL s).dropWhile isPySpace

/-- Python `str.strip()`. -/
def pyStrip (s : String) : String := ⟨pyStripL s.data⟩

/-- Python `str.lower()` (ASCII letters; the literals compared here are ASCII). -/
def lowerStr (s : String) : String := ⟨s.data.map Char.toLower⟩

/-- `main.py` `get_file_extension`: `"." + filename.split(".")[-1].lower()`
when the filename contains a dot, otherwise the empty string. -/
def get_file_extension (filename : String) : String :=
  if '.' ∈ filename.data then
    "." ++ lowerStr ⟨(filename.data.splitOn '.').getLastD []⟩
  else ""

/-- The base64 alphabet of RFC 4648, as used by Python `base64.b64encode`. -/
def b64Alphabet : List Char :=
  "ABCDEFGHIJKLMNOPQRSTUVWXYZabcdefghijklmnopqrstuvwxyz0123456789+/".data

def b64Char (n : Nat) : Char := b64Alphabet.getD n '='

/-- Standard base64 encoding of a byte sequence (values 0–255), with padding. -/
def base64Encode : List Nat → List Char
  | [] => []
  | [b1] => [b64Char (b1 / 4), b64Char (b1 % 4 * 16), '=', '=']
  | [b1, b2] => [b64Char (b1 / 4), b64Char (b1 % 4 * 16 + b2 / 16), b64Char (b2 % 16 * 4), '=']
  | b1 :: b2 :: b3 :: rest =>
      b64Char (b1 / 4) :: b64Char (b1 % 4 * 16 + b2 / 16) ::
        b64Char (b2 % 16 * 4 + b3 / 64) :: b64Char (b3 % 64) :: base64Encode rest

/-- The sixteen lowercase hexadecimal digits. -/
def hexDigits : List Char := "0123456789abcdef".data

def hexCharOf (d : Nat) : Char := hexDigits.getD d '0'

def isHexDigitB (c : Char) : Bool :=
  (48 ≤ c.toNat && c.toNat ≤ 57) || (97 ≤ c.toNat && c.toNat ≤ 102) ||
    (65 ≤ c.toNat && c.toNat ≤ 70)

def hexDigitVal (c : Char) : Nat :=
  if c.toNat ≤ 57 then c.toNat - 48 else if c.toNat ≤ 70 then c.toNat - 55 else c.toNat - 87

def hexToNatL (l : List Char) : Nat := l.foldl (fun a c => a * 16 + hexDigitVal c) 0

/-- Fixed-width lowercase hexadecimal digits of `n`, most significant first. -/
def toHexFixed : Nat → Nat → List Char
  | _, 0 => []
  | n, l + 1 => toHexFixed (n / 16) l ++ [hexCharOf (n % 16)]

/-- The character sequence of `str(uuid.UUID(int=n))`: 32 lowercase hex digits
grouped 8-4-4-4-12 with dashes. -/
def uuidCharsOf (n : Nat) : List Char :=
  let h := toHexFixed n 32
  h.take 8 ++ '-' :: ((h.drop 8).take 4 ++ '-' :: ((h.drop 12).take 4 ++ '-' ::
    ((h.drop 16).take 4 ++ '-' :: h.drop 20)))

/-- Canonical string form of a UUID value. -/
def uuidToString (n : Nat) : String := ⟨uuidCharsOf n⟩

def isPrefixB : List Char → List Char → Bool
  | [], _ => true
  | _ :: _, [] => false
  | p :: ps, c :: cs => p = c && isPrefixB ps cs

/-- Worker for Python `str.replace(pat, rep)` (all occurrences, left to right);
`skip` counts characters of a just-matched pattern still to be consumed.
Only used with non-empty patterns. -/
def replaceSkip (pat rep : List Char) : Nat → List Char → List Char
  | _, [] => []
  | k + 1, _ :: cs => replaceSkip pat rep k cs
  | 0, c :: cs =>
      if isPrefixB pat (c :: cs) then rep ++ replaceSkip pat rep (pat.length - 1) cs
      else c :: replaceSkip pat rep 0 cs

/-- Python `s.replace(pat, rep)` for a non-empty pattern. -/
def replaceL (pat rep s : List Char) : List Char := replaceSkip pat rep 0 s

def braceChars : List Char := [Char.ofNat 123, Char.ofNat 125]

/-- Python `s.strip(braces)`: remove leading and trailing brace characters. -/
def stripBracesL (s : List Char) : List Char :=
  ((s.dropWhile braceChars.contains).reverse.dropWhile braceChars.contains).reverse

/-- Final step of UUID parsing: require exactly 32 hexadecimal digits and
read them as a 128-bit value. -/
def pyUUIDcheck (t : List Char) : Option Nat :=
  if t.length = 32 && t.all isHexDigitB then some (hexToNatL t) else none

/-- Model of Python `uuid.UUID(hex=s)` (stdlib, external to the repository):
remove `urn:` and `uuid:` markers, strip braces, remove dashes, then require
exactly 32 hexadecimal digits and read them as a 128-bit value.  (The model
requires plain hex digits where CPython's `int(s, 16)` would additionally
tolerate fringe forms such as a leading sign; such fringe inputs simply fall
through to the name-based-UUID branch of the handler.) -/
def pyUUIDparse (s : String) : Option Nat :=
  pyUUIDcheck (replaceL ['-'] []
    (stripBracesL (replaceL "uuid:".data [] (replaceL "urn:".data [] s.data))))

/-- One content part of an agent message: a text block or an inlined image. -/
inductive ContentPart where
  | text (s : String)
  | image_url (url : String)
deriving DecidableEq

/-- Message content: either a bare string or a list of content parts, exactly
as `main.py` builds them. -/
inductive MsgContent where
  | str (s : String)
  | parts (ps : List ContentPart)
deriving DecidableEq

structure Message where
  role : String
  content : MsgContent
deriving DecidableEq

/-- Shape of the value returned by an agent `ainvoke` call: a dict holding a
`messages` list (modelled by the contents of those messages), or any other
value (modelled by its string form). -/
inductive AgentRet where
  | messages (contents : List String)
  | other (s : String)
deriving DecidableEq

/-- Reply extraction (`main.py` lines 456–459 and 499–502): content of the
last message, the fixed text `Sem resposta` when the message list is empty,
and `str(resultado)` for non-dict returns. -/
def extractReply : AgentRet → String
  | .messages l => l.getLastD "Sem resposta"
  | .other s => s

/-- External collaborators of the handler, as abstract functions:
PDF parsing (`PdfReader` + per-page `extract_text`), the OCR pipeline
(`Image.open`/`convert`/`readtext`, returning the recognised fragments),
the two agents, Python's `uuid4` (the random value drawn for this request)
and `uuid5(NAMESPACE_DNS, ·)` (a deterministic name-based hash), and the
wall-clock UTC time in seconds. -/
structure Env where
  pdfParse : List Nat → Except String (List String)
  ocr : List Nat → Except String (List String)
  summaryAgent : Message → Except String AgentRet
  queryAgent : Message → Except String AgentRet
  randomUUID : Nat
  uuid5fn : String → Nat
  nowUtc : Int

/-- `main.py` `extrair_texto_imagem`: any failure of the image/OCR pipeline
yields the empty string; a blank OCR result also yields the empty string. -/
def extrair_texto_imagem (env : Env) (conteudo : List Nat) : String :=
  match env.ocr conteudo with
  | .error _ => ""
  | .ok frags =>
      let texto := String.intercalate " " frags
      if texto == "" || pyStrip texto == "" then "" else texto

/-- `main.py` `extrair_texto_pdf`: append each page's text plus a newline,
then strip; any parsing failure yields a placeholder embedding the message. -/
def extrair_texto_pdf (env : Env) (conteudo : List Nat) : String :=
  match env.pdfParse conteudo with
  | .error e => "[Erro ao processar PDF: " ++ e ++ "]"
  | .ok pages => pyStrip (pages.foldl (fun acc p => acc ++ (p ++ "\n")) "")

def imageExts : List String := [".jpg", ".jpeg", ".png"]

/-- `main.py` `processar_arquivo`: dispatch on the lowercased extension. -/
def processar_arquivo (env : Env) (filename : String) (conteudo : List Nat) : String :=
  let extensao := get_file_extension filename
  if extensao = ".pdf" then extrair_texto_pdf env conteudo
  else if imageExts.contains extensao then extrair_texto_imagem env conteudo
  else if extensao = ".doc" || extensao = ".docx" then
    "[Processamento de arquivos Word em desenvolvimento]"
  else "[Tipo de arquivo não suportado para extração de texto]"

structure UploadedFile where
  filename : String
  content_type : String
  bytes : List Nat
deriving DecidableEq

/-- One entry of `arquivos_processados` (`main.py` lines 417–424). -/
structure Processed where
  filename : String
  content_type : String
  size : Nat
  texto : String
  bytes_originais : List Nat
  extensao : String
deriving DecidableEq

structure FileInfo where
  filename : String
  content_type : String
  size : Nat
deriving DecidableEq

/-- One document handed to `insert_one` by `log_request` (`src/database.py`). -/
structure LogEntry where
  request_id : String
  user_id : String
  timestamp : Int
  query : String
  resultado : String
  files_count : Nat
  status : String
deriving DecidableEq

/-- The JSON body of a successful `/curriculo` response. -/
structure Response where
  request_id : String
  user_id : String
  files_processed : Nat
  files_info : List FileInfo
  query : String
  resultado : String
deriving DecidableEq

inductive HandlerResult where
  | ok (resp : Response)
  | httpError (status : Nat) (detail : String)
deriving DecidableEq

structure TraceCore where
  extracted : List String
  summaryCalls : List Message
  queryCalls : List Message
deriving DecidableEq

/-- Observable side effects of one request: filenames on which extraction ran,
the agent payloads sent, and the log entries handed to the sink together with
whether the insert succeeded. -/
structure Trace where
  extracted : List String
  summaryCalls : List Message
  queryCalls : List Message
  logAttempts : List (LogEntry × Bool)
deriving DecidableEq

/-- Python slicing `s[:n]`: the first `n` characters. -/
def pyTake (n : Nat) (s : String) : String := ⟨s.data.take n⟩

/-- `src/database.py` `log_request`: the stored timestamp is UTC now minus a
fixed three hours (seconds), and the result text is truncated to its first
500 characters before storage. -/
def mkLogEntry (nowUtc : Int) (request_id user_id query resultado : String)
    (files_count : Nat) (status : String) : LogEntry :=
  { request_id := request_id, user_id := user_id,
    timestamp := nowUtc - 3 * 3600,
    query := query, resultado := pyTake 500 resultado,
    files_count := files_count, status := status }

def allowed_extensions : List String := [".pdf", ".jpg", ".jpeg", ".png", ".doc", ".docx"]

def extAllowedB (filename : String) : Bool :=
  allowed_extensions.contains (get_file_extension filename)

def badExtDetail (filename : String) : String :=
  "Arquivo " ++ filename ++ " tem extensão não permitida. Permitidos: PDF, JPG, PNG, DOCX"

def mkProc (env : Env) (f : UploadedFile) : Processed :=
  { filename := f.filename, content_type := f.content_type, size := f.bytes.length,
    texto := processar_arquivo env f.filename f.bytes,
    bytes_originais := f.bytes, extensao := get_file_extension f.filename }

/-- Validation-plus-extraction loop (`main.py` lines 404–424): per file, first
the extension allow-list check (raising the 400 detail on failure), then
extraction.  The second component records, in order, the filenames on which
extraction actually ran before the loop ended. -/
def validateExtract (env : Env) : List UploadedFile → Except String (List Processed) × List String
  | [] => (.ok [], [])
  | f :: fs =>
      if extAllowedB f.filename then
        let rest := validateExtract env fs
        ((match rest.1 with
          | .error d => .error d
          | .ok ps => .ok (mkProc env f :: ps)), f.filename :: rest.2)
      else (.error (badExtDetail f.filename), [])

/-- `main.py` lines 426–430: summarise when the query is `None`, blank after
stripping, or case-insensitively the literal `string`. -/
def deveSumarizarB : Option String → Bool
  | none => true
  | some q => pyStrip q == "" || lowerStr (pyStrip q) == "string"

def sentinelSumarizacao : String := "[Modo: Sumarização Individual]"

/-- `main.py` line 504: the query text recorded in the log and echoed in the
response — the original query, or the summary-mode sentinel. -/
def queryParaLog : Option String → String
  | none => sentinelSumarizacao
  | some q =>
      if q != "" && pyStrip q != "" && lowerStr (pyStrip q) != "string" then q
      else sentinelSumarizacao

def eqLine : String := ⟨List.replicate 60 '='⟩

/-- `main.py` lines 435 and 473: falsy or blank extracted text. -/
def ocrFalhouB (texto : String) : Bool := texto == "" || pyStrip texto == ""

/-- `main.py` lines 440 and 482. -/
def mimeFor (extensao : String) : String :=
  if extensao == ".jpg" || extensao == ".jpeg" then "image/jpeg" else "image/png"

def dataUrlFor (extensao : String) (bytes : List Nat) : String :=
  "data:" ++ mimeFor extensao ++ ";base64," ++ ⟨base64Encode bytes⟩

def instrSummaryImage : String :=
  "Analise este currículo em formato de imagem e gere o sumário completo seguindo o formato solicitado:"

/-- Summary-mode agent payload for one document (`main.py` lines 437–454):
an image part (base64 of the original bytes) plus a fixed instruction when
extraction yielded nothing and the file is an image; otherwise the extracted
text as the bare message content. -/
def summaryMsgFor (arq : Processed) : Message :=
  if ocrFalhouB arq.texto && imageExts.contains arq.extensao then
    { role := "user",
      content := .parts [.text instrSummaryImage,
        .image_url (dataUrlFor arq.extensao arq.bytes_originais)] }
  else { role := "user", content := .str arq.texto }

/-- The framed summary section (`main.py` lines 461–464): note the leading
newline written before the first `=`-line. -/
def sectionFor (i : Nat) (filename reply : String) : String :=
  "\n" ++ eqLine ++ "\n" ++ "CURRÍCULO  #" ++ toString i ++ ": " ++ filename ++ " - Sumário\n"
    ++ eqLine ++ "\n" ++ reply ++ "\n"

/-- Summary loop (`main.py` lines 432–467): one agent call per file with a
1-based index; returns the framed sections (or the first agent exception) and
the payloads sent, in order. -/
def runSummaries (env : Env) : Nat → List Processed → Except String (List String) × List Message
  | _, [] => (.ok [], [])
  | i, arq :: rest =>
      let msg := summaryMsgFor arq
      match env.summaryAgent msg with
      | .error e => (.error e, [msg])
      | .ok ret =>
          let rest' := runSummaries env (i + 1) rest
          ((match rest'.1 with
            | .error e => .error e
            | .ok secs => .ok (sectionFor i arq.filename (extractReply ret) :: secs)),
            msg :: rest'.2)

/-- Query-mode per-document banner (`main.py` lines 475–477): single space
after `CURRÍCULO`, no ` - Sumário` suffix, trailing newline after the second
`=`-line. -/
def queryHeaderFor (i : Nat) (filename : String) : String :=
  "\n" ++ eqLine ++ "\n" ++ "CURRÍCULO #" ++ toString i ++ ": " ++ filename ++ "\n" ++ eqLine ++ "\n"

def instrQueryImage : String := "[Imagem do currículo - OCR não disponível, analisando visualmente]"

/-- Query-mode content parts for one document (`main.py` lines 472–493). -/
def querySegFor (i : Nat) (arq : Processed) : List ContentPart :=
  .text (queryHeaderFor i arq.filename) ::
    (if ocrFalhouB arq.texto && imageExts.contains arq.extensao then
      [.text instrQueryImage, .image_url (dataUrlFor arq.extensao arq.bytes_originais)]
    else [.text (arq.texto ++ "\n")])

def querySegsFrom : Nat → List Processed → List ContentPart
  | _, [] => []
  | i, arq :: rest => querySegFor i arq ++ querySegsFrom (i + 1) rest

/-- The single combined query-mode payload (`main.py` lines 470–497). -/
def queryMessageOf (q : String) (arqs : List Processed) : Message :=
  { role := "user",
    content := .parts (.text ("PERGUNTA/CONSULTA: " ++ q ++ "\n") :: querySegsFrom 1 arqs) }

/-- Request-id resolution (`main.py` lines 393–399): absent → the random
UUID; parses as a UUID → that value; otherwise `uuid5(NAMESPACE_DNS, s)`. -/
def resolveRequestUuid (env : Env) : Option String → Nat
  | none => env.randomUUID
  | some s =>
      match pyUUIDparse s with
      | some n => n
      | none => env.uuid5fn s

def fileInfoOf (a : Processed) : FileInfo :=
  { filename := a.filename, content_type := a.content_type, size := a.size }

/-- The `/curriculo` handler (`main.py` `analisar_curriculo`) without the log
sink: the HTTP-level outcome, the extraction/agent-call trace, and the log
entries handed to `log_request`.  A 400 extension failure re-raises verbatim
(`except HTTPException: raise`); an agent exception is wrapped into a 500
after a best-effort error log (`main.py` lines 534–550). -/
def analisarCore (env : Env) (files : List UploadedFile) (query : Option String)
    (request_id : Option String) (user_id : String) :
    HandlerResult × TraceCore × List LogEntry :=
  let ridStr := uuidToString (resolveRequestUuid env request_id)
  match validateExtract env files with
  | (.error d, tr) => (.httpError 400 d, ⟨tr, [], []⟩, [])
  | (.ok arqs, tr) =>
      if deveSumarizarB query then
        match runSummaries env 1 arqs with
        | (.error e, calls) =>
            (.httpError 500 ("Erro ao processar requisição: " ++ e), ⟨tr, calls, []⟩,
              [mkLogEntry env.nowUtc ridStr user_id (queryParaLog query) ("Erro: " ++ e)
                arqs.length "error"])
        | (.ok secs, calls) =>
            let resposta := String.intercalate "\n" secs
            (.ok { request_id := ridStr, user_id := user_id, files_processed := arqs.length,
                   files_info := arqs.map fileInfoOf, query := queryParaLog query,
                   resultado := resposta },
              ⟨tr, calls, []⟩,
              [mkLogEntry env.nowUtc ridStr user_id (queryParaLog query) resposta
                arqs.length "success"])
      else
        let msg := queryMessageOf (query.getD "") arqs
        match env.queryAgent msg with
        | .error e =>
            (.httpError 500 ("Erro ao processar requisição: " ++ e), ⟨tr, [], [msg]⟩,
              [mkLogEntry env.nowUtc ridStr user_id (queryParaLog query) ("Erro: " ++ e)
                arqs.length "error"])
        | .ok ret =>
            let resposta := extractReply ret
            (.ok { request_id := ridStr, user_id := user_id, files_processed := arqs.length,
                   files_info := arqs.map fileInfoOf, query := queryParaLog query,
                   resultado := resposta },
              ⟨tr, [], [msg]⟩,
              [mkLogEntry env.nowUtc ridStr user_id (queryParaLog query) resposta
                arqs.length "success"])

def exceptOkB : Except String Unit → Bool
  | .ok _ => true
  | .error _ => false

/-- The full handler: the core plus the fire-and-forget log sink
(`insert_one`), whose failure is swallowed in both the success path
(`main.py` lines 506–516) and the error path (lines 537–549). -/
def analisar_curriculo (env : Env) (insertOne : LogEntry → Except String Unit)
    (files : List UploadedFile) (query : Option String) (request_id : Option String)
    (user_id : String) : HandlerResult × Trace :=
  match analisarCore env files query request_id user_id with
  | (r, tc, es) =>
      (r, { extracted := tc.extracted, summaryCalls := tc.summaryCalls,
            queryCalls := tc.queryCalls,
            logAttempts := es.map fun e => (e, exceptOkB (insertOne e)) })

/-- The summary-mode condition exactly as worded in claim C2 (the spec's
refinement side): absent, empty after trimming, or equal case-insensitively
to the literal `string`. -/
def claimSummaryCondB : Option String → Bool
  | none => true
  | some q => pyStrip q == "" || lowerStr (pyStrip q) == lowerStr "string"

/-- The banner format exactly as worded in claim C4: no leading newline
before the first `=`-line. -/
def claimedSectionFor (i : Nat) (filename reply : String) : String :=
  eqLine ++ "\n" ++ "CURRÍCULO  #" ++ toString i ++ ": " ++ filename ++ " - Sumário\n"
    ++ eqLine ++ "\n" ++ reply ++ "\n"

/-- Page texts joined with a newline between pages, as worded in claim C7. -/
def joinBetweenNl : List String → String
  | [] => ""
  | [p] => p
  | p :: rest => p ++ "\n" ++ joinBetweenNl rest

/-- The framed sections produced when every summary-agent call succeeds with
the reply designated by `replies`. -/
def sectionsWith (replies : Processed → AgentRet) : Nat → List Processed → List String
  | _, [] => []
  | i, a :: rest =>
      sectionFor i a.filename (extractReply (replies a)) :: sectionsWith replies (i + 1) rest

def resultadoOf : HandlerResult → String
  | .ok r => r.resultado
  | .httpError _ d => d

def errorEntryOf (env : Env) (rid : Option String) (uid qlog e : String) (n : Nat) : LogEntry :=
  mkLogEntry env.nowUtc (uuidToString (resolveRequestUuid env rid)) uid qlog ("Erro: " ++ e)
    n "error"

def successEntryOf (env : Env) (rid : Option String) (uid qlog resposta : String)
    (n : Nat) : LogEntry :=
  mkLogEntry env.nowUtc (uuidToString (resolveRequestUuid env rid)) uid qlog resposta
    n "success"

/-- A concrete environment used by the witnesses. -/
def envW : Env :=
  { pdfParse := fun _ => .ok ["Texto do PDF"],
    ocr := fun _ => .error "ocr indisponivel",
    summaryAgent := fun _ => .ok (.messages ["SumarioW"]),
    queryAgent := fun _ => .ok (.messages ["RespostaW"]),
    randomUUID := 5, uuid5fn := fun _ => 7, nowUtc := 100000 }

def envFailQW : Env := { envW with queryAgent := fun _ => .error "Connection timeout" }

def envFailBW : Env :=
  { envW with queryAgent := fun _ => .error "Connection timeout",
              summaryAgent := fun _ => .error "Connection timeout" }

def insertOkW : LogEntry → Except String Unit := fun _ => .ok ()

def insertFailW : LogEntry → Except String Unit := fun _ => .error "mongo down"

def filePdfW : UploadedFile :=
  { filename := "a.pdf", content_type := "application/pdf", bytes := [1, 2, 3] }

def fileBadW : UploadedFile :=
  { filename := "b.txt", content_type := "text/plain", bytes := [4] }

def fileImgW : UploadedFile :=
  { filename := "c.png", content_type := "image/png", bytes := [77, 78] }

def repliesW : Processed → AgentRet := fun _ => .messages ["SumarioW"]

/-! ### Behavioral helper lemmas -/

theorem queryParaLog_of_sum (query : Option String) (h : deveSumarizarB query = true) :
    queryParaLog query = sentinelSumarizacao := by
  cases query with
  | none => rfl
  | some q =>
      simp only [deveSumarizarB, Bool.or_eq_true, beq_iff_eq] at h
      rcases h with h | h <;> simp [queryParaLog, h]

theorem queryParaLog_of_notSum (q : String) (h : deveSumarizarB (some q) = false) :
    queryParaLog (some q) = q := by
  simp only [deveSumarizarB, Bool.or_eq_false_iff, beq_eq_false_iff_ne, ne_eq] at h
  have hq : ¬(q = "") := fun he => h.1 (by rw [he]; rfl)
  simp [queryParaLog, h.1, h.2, hq]

theorem validateExtract_ok (env : Env) (files : List UploadedFile)
    (h : ∀ f ∈ files, extAllowedB f.filename = true) :
    validateExtract env files = (.ok (files.map (mkProc env)), files.map (·.filename)) := by
  induction files with
  | nil => rfl
  | cons f fs ih =>
      have hf : extAllowedB f.filename = true := h f (List.mem_cons_self f fs)
      have hrest := ih fun g hg => h g (List.mem_cons_of_mem f hg)
      simp [validateExtract, hf, hrest]

theorem validateExtract_firstBad (env : Env) (pre : List UploadedFile) (bad : UploadedFile)
    (rest : List UploadedFile) (hpre : ∀ f ∈ pre, extAllowedB f.filename = true)
    (hbad : extAllowedB bad.filename = false) :
    validateExtract env (pre ++ bad :: rest) =
      (.error (badExtDetail bad.filename), pre.map (·.filename)) := by
  induction pre with
  | nil => simp [validateExtract, hbad]
  | cons f fs ih =>
      have hf := hpre f (List.mem_cons_self f fs)
      have hrest := ih fun g hg => hpre g (List.mem_cons_of_mem f hg)
      simp [validateExtract, hf, hrest]

theorem runSummaries_ok (env : Env) (replies : Processed → AgentRet) (arqs : List Processed)
    (h : ∀ a ∈ arqs, env.summaryAgent (summaryMsgFor a) = .ok (replies a)) (i : Nat) :
    runSummaries env i arqs = (.ok (sectionsWith replies i arqs), arqs.map summaryMsgFor) := by
  induction arqs generalizing i with
  | nil => rfl
  | cons a rest ih =>
      have ha := h a (List.mem_cons_self a rest)
      have hrest := ih (fun b hb => h b (List.mem_cons_of_mem a hb)) (i + 1)
      simp [runSummaries, ha, hrest, sectionsWith]

theorem sectionsWith_length (replies : Processed → AgentRet) (arqs : List Processed) (i : Nat) :
    (sectionsWith replies i arqs).length = arqs.length := by
  induction arqs generalizing i with
  | nil => rfl
  | cons a rest ih => simp [sectionsWith, ih]

theorem analisar_summary_spec (env : Env) (insertOne : LogEntry → Except String Unit)
    (files : List UploadedFile) (query : Option String) (request_id : Option String)
    (user_id : String) (replies : Processed → AgentRet)
    (hall : ∀ f ∈ files, extAllowedB f.filename = true)
    (hm : deveSumarizarB query = true)
    (hrep : ∀ a ∈ files.map (mkProc env), env.summaryAgent (summaryMsgFor a) = .ok (replies a)) :
    analisar_curriculo env insertOne files query request_id user_id =
      (.ok { request_id := uuidToString (resolveRequestUuid env request_id), user_id := user_id,
             files_processed := files.length,
             files_info := (files.map (mkProc env)).map fileInfoOf,
             query := sentinelSumarizacao,
             resultado := String.intercalate "\n"
               (sectionsWith replies 1 (files.map (mkProc env))) },
       { extracted := files.map (·.filename),
         summaryCalls := (files.map (mkProc env)).map summaryMsgFor,
         queryCalls := [],
         logAttempts := [(successEntryOf env request_id user_id sentinelSumarizacao
             (String.intercalate "\n" (sectionsWith replies 1 (files.map (mkProc env))))
             files.length,
           exceptOkB (insertOne (successEntryOf env request_id user_id sentinelSumarizacao
             (String.intercalate "\n" (sectionsWith replies 1 (files.map (mkProc env))))
             files.length)))] }) := by
  unfold analisar_curriculo analisarCore
  rw [validateExtract_ok env files hall]
  simp [hm, runSummaries_ok env replies _ hrep 1, queryParaLog_of_sum query hm,
    successEntryOf, List.length_map]

theorem analisar_query_spec (env : Env) (insertOne : LogEntry → Except String Unit)
    (files : List UploadedFile) (q : String) (request_id : Option String)
    (user_id : String) (ret : AgentRet)
    (hall : ∀ f ∈ files, extAllowedB f.filename = true)
    (hm : deveSumarizarB (some q) = false)
    (ha : env.queryAgent (queryMessageOf q (files.map (mkProc env))) = .ok ret) :
    analisar_curriculo env insertOne files (some q) request_id user_id =
      (.ok { request_id := uuidToString (resolveRequestUuid env request_id), user_id := user_id,
             files_processed := files.length,
             files_info := (files.map (mkProc env)).map fileInfoOf,
             query := q, resultado := extractReply ret },
       { extracted := files.map (·.filename), summaryCalls := [],
         queryCalls := [queryMessageOf q (files.map (mkProc env))],
         logAttempts := [(successEntryOf env request_id user_id q (extractReply ret) files.length,
           exceptOkB (insertOne
             (successEntryOf env request_id user_id q (extractReply ret) files.length)))] }) := by
  unfold analisar_curriculo analisarCore
  rw [validateExtract_ok env files hall]
  simp [hm, ha, queryParaLog_of_notSum q hm, successEntryOf, List.length_map]

theorem analisar_query_err_spec (env : Env) (insertOne : LogEntry → Except String Unit)
    (files : List UploadedFile) (q : String) (request_id : Option String)
    (user_id : String) (e : String)
    (hall : ∀ f ∈ files, extAllowedB f.filename = true)
    (hm : deveSumarizarB (some q) = false)
    (ha : env.queryAgent (queryMessageOf q (files.map (mkProc env))) = .error e) :
    analisar_curriculo env insertOne files (some q) request_id user_id =
      (.httpError 500 ("Erro ao processar requisição: " ++ e),
       { extracted := files.map (·.filename), summaryCalls := [],
         queryCalls := [queryMessageOf q (files.map (mkProc env))],
         logAttempts := [(errorEntryOf env request_id user_id q e files.length,
           exceptOkB (insertOne (errorEntryOf env request_id user_id q e files.length)))] }) := by
  unfold analisar_curriculo analisarCore
  rw [validateExtract_ok env files hall]
  simp [hm, ha, queryParaLog_of_notSum q hm, errorEntryOf, List.length_map]

theorem analisar_summary_err_spec (env : Env) (insertOne : LogEntry → Except String Unit)
    (files : List UploadedFile) (query : Option String) (request_id : Option String)
    (user_id : String) (e : String) (calls : List Message)
    (hall : ∀ f ∈ files, extAllowedB f.filename = true)
    (hm : deveSumarizarB query = true)
    (ha : runSummaries env 1 (files.map (mkProc env)) = (.error e, calls)) :
    analisar_curriculo env insertOne files query request_id user_id =
      (.httpError 500 ("Erro ao processar requisição: " ++ e),
       { extracted := files.map (·.filename), summaryCalls := calls, queryCalls := [],
         logAttempts := [(errorEntryOf env request_id user_id (queryParaLog query) e files.length,
           exceptOkB (insertOne
             (errorEntryOf env request_id user_id (queryParaLog query) e files.length)))] }) := by
  unfold analisar_curriculo analisarCore
  rw [validateExtract_ok env files hall]
  simp [hm, ha, errorEntryOf, List.length_map]

theorem analisar_badext_spec (env : Env) (insertOne : LogEntry → Except String Unit)
    (pre : List UploadedFile) (bad : UploadedFile) (rest : List UploadedFile)
    (query : Option String) (request_id : Option String) (user_id : String)
    (hpre : ∀ f ∈ pre, extAllowedB f.filename = true)
    (hbad : extAllowedB bad.filename = false) :
    analisar_curriculo env insertOne (pre ++ bad :: rest) query request_id user_id =
      (.httpError 400 (badExtDetail bad.filename),
       { extracted := pre.map (·.filename), summaryCalls := [], queryCalls := [],
         logAttempts := [] }) := by
  unfold analisar_curriculo analisarCore
  rw [validateExtract_firstBad env pre bad rest hpre hbad]
  rfl

/-! ### UUID canonical-form round trip -/

theorem hexDigitVal_hexCharOf : ∀ d, d < 16 → hexDigitVal (hexCharOf d) = d := by decide

theorem hexCharOf_mem_of_lt : ∀ d, d < 16 → hexCharOf d ∈ hexDigits := by decide

theorem hexDigits_isHex : ∀ c ∈ hexDigits, isHexDigitB c = true := by decide

theorem hexDigits_ne_dash : ∀ c ∈ hexDigits, ¬c = '-' := by decide

theorem hexDigits_ne_u : ∀ c ∈ hexDigits, ¬c = 'u' := by decide

theorem hexDigits_not_brace : ∀ c ∈ hexDigits, braceChars.contains c = false := by decide

theorem length_toHexFixed : ∀ (l n : Nat), (toHexFixed n l).length = l := by
  intro l
  induction l with
  | zero => intro n; rfl
  | succ l ih => intro n; simp [toHexFixed, ih]

theorem mem_toHexFixed : ∀ (l n : Nat) (c : Char), c ∈ toHexFixed n l → c ∈ hexDigits := by
  intro l
  induction l with
  | zero => intro n c h; simp [toHexFixed] at h
  | succ l ih =>
      intro n c h
      simp only [toHexFixed, List.mem_append, List.mem_singleton] at h
      rcases h with h | h
      · exact ih _ _ h
      · subst h; exact hexCharOf_mem_of_lt _ (Nat.mod_lt n (by norm_num))

theorem hexToNatL_append_singleton (l : List Char) (c : Char) :
    hexToNatL (l ++ [c]) = hexToNatL l * 16 + hexDigitVal c := by
  unfold hexToNatL
  rw [List.foldl_append]
  rfl

theorem hexToNat_toHexFixed : ∀ (l n : Nat), hexToNatL (toHexFixed n l) = n % 16 ^ l := by
  intro l
  induction l with
  | zero => intro n; simp [toHexFixed, hexToNatL, Nat.mod_one]
  | succ l ih =>
      intro n
      simp only [toHexFixed]
      rw [hexToNatL_append_singleton, ih (n / 16),
        hexDigitVal_hexCharOf _ (Nat.mod_lt n (by norm_num)),
        Nat.pow_succ, Nat.mul_comm (16 ^ l) 16, Nat.mod_mul]
      omega

theorem mem_uuidCharsOf (n : Nat) (c : Char) (h : c ∈ uuidCharsOf n) :
    c ∈ hexDigits ∨ c = '-' := by
  simp only [uuidCharsOf, List.mem_append, List.mem_cons] at h
  rcases h with h | h | h | h | h | h | h | h | h
  · exact Or.inl (mem_toHexFixed 32 n c (List.mem_of_mem_take h))
  · exact Or.inr h
  · exact Or.inl (mem_toHexFixed 32 n c (List.mem_of_mem_drop (List.mem_of_mem_take h)))
  · exact Or.inr h
  · exact Or.inl (mem_toHexFixed 32 n c (List.mem_of_mem_drop (List.mem_of_mem_take h)))
  · exact Or.inr h
  · exact Or.inl (mem_toHexFixed 32 n c (List.mem_of_mem_drop (List.mem_of_mem_take h)))
  · exact Or.inr h
  · exact Or.inl (mem_toHexFixed 32 n c (List.mem_of_mem_drop h))

theorem dropWhile_eq_self_of_all {p : Char → Bool} (s : List Char)
    (h : ∀ c ∈ s, p c = false) : s.dropWhile p = s := by
  cases s with
  | nil => rfl
  | cons c cs => simp [List.dropWhile, h c (List.mem_cons_self c cs)]

theorem stripBracesL_eq_self (s : List Char)
    (h : ∀ c ∈ s, braceChars.contains c = false) : stripBracesL s = s := by
  unfold stripBracesL
  rw [dropWhile_eq_self_of_all s h,
    dropWhile_eq_self_of_all s.reverse (fun c hc => h c (List.mem_reverse.mp hc)),
    List.reverse_reverse]

theorem replaceSkip_id (p0 : Char) (ps rep : List Char) :
    ∀ s : List Char, (∀ c ∈ s, ¬c = p0) → replaceSkip (p0 :: ps) rep 0 s = s := by
  intro s
  induction s with
  | nil => intro _; rfl
  | cons c cs ih =>
      intro h
      have hne : ¬p0 = c := fun he => h c (List.mem_cons_self c cs) he.symm
      simp [replaceSkip, isPrefixB, hne, ih fun b hb => h b (List.mem_cons_of_mem c hb)]

theorem replaceSkip_dash (s : List Char) :
    replaceSkip ['-'] [] 0 s = s.filter (fun c => !(c == '-')) := by
  induction s with
  | nil => rfl
  | cons c cs ih =>
      by_cases hc : c = '-'
      · subst hc
        simp [replaceSkip, isPrefixB, List.filter_cons, ih]
      · have hc' : ¬('-' = c) := fun he => hc he.symm
        have hb : (c == '-') = false := by simp [hc]
        simp [replaceSkip, isPrefixB, List.filter_cons, hc', hb, ih]

theorem filter_ne_dash_eq_self (l : List Char) (h : ∀ c ∈ l, ¬c = '-') :
    l.filter (fun c => !(c == '-')) = l := by
  induction l with
  | nil => rfl
  | cons c cs ih =>
      have hb : (c == '-') = false := by simp [h c (List.mem_cons_self c cs)]
      simp [List.filter_cons, hb, ih fun b hb' => h b (List.mem_cons_of_mem c hb')]

theorem filter_dash_cons (l : List Char) :
    ('-' :: l).filter (fun c => !(c == '-')) = l.filter (fun c => !(c == '-')) := rfl

theorem filter_uuidCharsOf (n : Nat) :
    (uuidCharsOf n).filter (fun c => !(c == '-')) = toHexFixed n 32 := by
  have hx : ∀ (k : Nat), ((toHexFixed n 32).drop k).filter (fun c => !(c == '-')) =
      (toHexFixed n 32).drop k := fun k =>
    filter_ne_dash_eq_self _ fun c hc =>
      hexDigits_ne_dash c (mem_toHexFixed 32 n c (List.mem_of_mem_drop hc))
  have ht : ∀ (j k : Nat), (((toHexFixed n 32).drop k).take j).filter (fun c => !(c == '-')) =
      ((toHexFixed n 32).drop k).take j := fun j k =>
    filter_ne_dash_eq_self _ fun c hc =>
      hexDigits_ne_dash c (mem_toHexFixed 32 n c (List.mem_of_mem_drop (List.mem_of_mem_take hc)))
  have ht8 : ((toHexFixed n 32).take 8).filter (fun c => !(c == '-')) =
      (toHexFixed n 32).take 8 :=
    filter_ne_dash_eq_self _ fun c hc =>
      hexDigits_ne_dash c (mem_toHexFixed 32 n c (List.mem_of_mem_take hc))
  have hasm : ∀ (j k : Nat), ((toHexFixed n 32).drop k).take j ++ (toHexFixed n 32).drop (k + j) =
      (toHexFixed n 32).drop k := by
    intro j k
    rw [← List.drop_drop, List.take_append_drop]
  have h20 := hasm 4 16
  have h16 := hasm 4 12
  have h12 := hasm 4 8
  norm_num at h20 h16 h12
  simp only [uuidCharsOf]
  rw [List.filter_append, ht8, filter_dash_cons, List.filter_append, ht 4 8, filter_dash_cons,
    List.filter_append, ht 4 12, filter_dash_cons, List.filter_append, ht 4 16,
    filter_dash_cons, hx 20, h20, h16, h12, List.take_append_drop]

theorem pyUUIDparse_uuidToString (n : Nat) (h : n < 2 ^ 128) :
    pyUUIDparse (uuidToString n) = some n := by
  have hmem := mem_uuidCharsOf n
  have hnu : ∀ c ∈ uuidCharsOf n, ¬c = 'u' := by
    intro c hc
    rcases hmem c hc with hx | hx
    · exact hexDigits_ne_u c hx
    · subst hx; decide
  have hnb : ∀ c ∈ uuidCharsOf n, braceChars.contains c = false := by
    intro c hc
    rcases hmem c hc with hx | hx
    · exact hexDigits_not_brace c hx
    · subst hx; decide
  have e1 : replaceL "urn:".data [] (uuidCharsOf n) = uuidCharsOf n :=
    replaceSkip_id 'u' "rn:".data [] (uuidCharsOf n) hnu
  have e2 : replaceL "uuid:".data [] (uuidCharsOf n) = uuidCharsOf n :=
    replaceSkip_id 'u' "uid:".data [] (uuidCharsOf n) hnu
  have e3 : stripBracesL (uuidCharsOf n) = uuidCharsOf n := stripBracesL_eq_self _ hnb
  have e4 : replaceL ['-'] [] (uuidCharsOf n) = toHexFixed n 32 := by
    show replaceSkip ['-'] [] 0 (uuidCharsOf n) = _
    rw [replaceSkip_dash, filter_uuidCharsOf]
  have hdata : (uuidToString n).data = uuidCharsOf n := rfl
  unfold pyUUIDparse
  rw [hdata, e1, e2, e3, e4]
  have hlen : (toHexFixed n 32).length = 32 := length_toHexFixed 32 n
  have hall : (toHexFixed n 32).all isHexDigitB = true := by
    rw [List.all_eq_true]
    intro c hc
    exact hexDigits_isHex c (mem_toHexFixed 32 n c hc)
  have hlt : n < 16 ^ 32 := by
    have : (16 : Nat) ^ 32 = 2 ^ 128 := by norm_num
    omega
  simp only [pyUUIDcheck, hlen, hall, hexToNat_toHexFixed]
  norm_num
  have e : (2 : Nat) ^ 128 = 340282366920938463463374607431768211456 := by norm_num
  omega

/-! ### PDF page-joining and inversion helpers -/

theorem rstripL_append_newline (l : List Char) : rstripL (l ++ ['\n']) = rstripL l := by
  have h2 : isPySpace '\n' = true := rfl
  simp [rstripL, List.dropWhile_cons, h2]

theorem pyStrip_append_newline (s : String) : pyStrip (s ++ "\n") = pyStrip s := by
  unfold pyStrip pyStripL
  rw [show (s ++ "\n").data = s.data ++ ['\n'] from rfl, rstripL_append_newline]

theorem pdf_fold_acc (pages : List String) :
    ∀ acc : String, pages.foldl (fun a p => a ++ (p ++ "\n")) acc =
      acc ++ pages.foldl (fun a p => a ++ (p ++ "\n")) "" := by
  induction pages with
  | nil => intro acc; simp [List.foldl]
  | cons p ps ih =>
      intro acc
      simp only [List.foldl]
      rw [ih (acc ++ (p ++ "\n")), ih ("" ++ (p ++ "\n")), String.empty_append,
        String.append_assoc]

theorem pdf_fold_eq (pages : List String) (h : pages ≠ []) :
    pages.foldl (fun a p => a ++ (p ++ "\n")) "" = joinBetweenNl pages ++ "\n" := by
  induction pages with
  | nil => exact absurd rfl h
  | cons p ps ih =>
      cases ps with
      | nil =>
          show "" ++ (p ++ "\n") = joinBetweenNl [p] ++ "\n"
          rw [String.empty_append]
          rfl
      | cons q qs =>
          show List.foldl _ ("" ++ (p ++ "\n")) (q :: qs) = joinBetweenNl (p :: q :: qs) ++ "\n"
          rw [String.empty_append, pdf_fold_acc (q :: qs) (p ++ "\n"), ih (by simp)]
          show (p ++ "\n") ++ (joinBetweenNl (q :: qs) ++ "\n") =
            (p ++ "\n" ++ joinBetweenNl (q :: qs)) ++ "\n"
          simp [String.append_assoc]

theorem extrair_pdf_ok (env : Env) (b : List Nat) (pages : List String)
    (h : env.pdfParse b = .ok pages) :
    extrair_texto_pdf env b = pyStrip (joinBetweenNl pages) := by
  unfold extrair_texto_pdf
  rw [h]
  cases pages with
  | nil => rfl
  | cons p ps =>
      show pyStrip (List.foldl (fun acc p => acc ++ (p ++ "\n")) "" (p :: ps)) =
        pyStrip (joinBetweenNl (p :: ps))
      rw [pdf_fold_eq (p :: ps) (by simp), pyStrip_append_newline]

theorem analisarCore_ok_request_id (env : Env) (files : List UploadedFile)
    (query : Option String) (request_id : Option String) (user_id : String) (resp : Response)
    (h : (analisarCore env files query request_id user_id).1 = .ok resp) :
    resp.request_id = uuidToString (resolveRequestUuid env request_id) := by
  simp only [analisarCore] at h
  split at h
  · simp at h
  · split at h
    · split at h
      · simp at h
      · simp at h
        subst h
        rfl
    · split at h
      · simp at h
      · simp at h
        subst h
        rfl

theorem analisar_ok_request_id (env : Env) (insertOne : LogEntry → Except String Unit)
    (files : List UploadedFile) (query : Option String) (request_id : Option String)
    (user_id : String) (resp : Response) (tr : Trace)
    (h : analisar_curriculo env insertOne files query request_id user_id = (.ok resp, tr)) :
    resp.request_id = uuidToString (resolveRequestUuid env request_id) := by
  apply analisarCore_ok_request_id env files query request_id user_id resp
  unfold analisar_curriculo at h
  rcases hc : analisarCore env files query request_id user_id with ⟨r, tc, es⟩
  rw [hc] at h
  have hr := congrArg Prod.fst h
  simp only at hr
  simp [hc, hr]

theorem hexDigitVal_lt (c : Char) (h : isHexDigitB c = true) : hexDigitVal c < 16 := by
  simp only [isHexDigitB, Bool.or_eq_true, Bool.and_eq_true, decide_eq_true_eq] at h
  unfold hexDigitVal
  by_cases h1 : c.toNat ≤ 57
  · rw [if_pos h1]
    omega
  · rw [if_neg h1]
    by_cases h2 : c.toNat ≤ 70
    · rw [if_pos h2]
      omega
    · rw [if_neg h2]
      omega

theorem hexToNatL_fold_lt (t : List Char) (h : ∀ c ∈ t, isHexDigitB c = true) :
    ∀ acc, List.foldl (fun a c => a * 16 + hexDigitVal c) acc t < (acc + 1) * 16 ^ t.length := by
  induction t with
  | nil => intro acc; simp
  | cons c cs ih =>
      intro acc
      have hv : hexDigitVal c < 16 := hexDigitVal_lt c (h c (List.mem_cons_self c cs))
      have hrec := ih (fun b hb => h b (List.mem_cons_of_mem c hb)) (acc * 16 + hexDigitVal c)
      simp only [List.foldl, List.length_cons]
      calc List.foldl (fun a c => a * 16 + hexDigitVal c) (acc * 16 + hexDigitVal c) cs
          < (acc * 16 + hexDigitVal c + 1) * 16 ^ cs.length := hrec
        _ ≤ ((acc + 1) * 16) * 16 ^ cs.length :=
            Nat.mul_le_mul_right _ (by omega)
        _ = (acc + 1) * 16 ^ (cs.length + 1) := by ring

theorem pyUUIDparse_lt (s : String) (n : Nat) (h : pyUUIDparse s = some n) : n < 2 ^ 128 := by
  unfold pyUUIDparse at h
  generalize ht : replaceL ['-'] []
    (stripBracesL (replaceL "uuid:".data [] (replaceL "urn:".data [] s.data))) = t at h
  unfold pyUUIDcheck at h
  split at h
  · rename_i hc
    simp only [Bool.and_eq_true, decide_eq_true_eq, List.all_eq_true] at hc
    injection h with h
    subst h
    have hb := hexToNatL_fold_lt t hc.2 0
    rw [hc.1] at hb
    unfold hexToNatL
    have he : (0 + 1) * 16 ^ 32 = 2 ^ 128 := by norm_num
    omega
  · exact absurd h (by simp)

/-! ### Claim theorems -/

/-- C1: for every request with a non-blank query that is not the sentinel
"string" (case-insensitively), exactly one agent invocation occurs for the
whole batch — the "query" agent, with no summary-agent call — the agent's
reply is returned verbatim as the result text with no banner wrapping, and
the response's `query` field echoes the caller's query verbatim. -/
theorem C1_query_mode (env : Env) (insertOne : LogEntry → Except String Unit)
    (files : List UploadedFile) (q : String) (request_id : Option String)
    (user_id : String) (ret : AgentRet)
    (hall : ∀ f ∈ files, extAllowedB f.filename = true)
    (hm : deveSumarizarB (some q) = false)
    (ha : env.queryAgent (queryMessageOf q (files.map (mkProc env))) = .ok ret) :
    ∃ resp tr, analisar_curriculo env insertOne files (some q) request_id user_id =
        (.ok resp, tr) ∧
      resp.query = q ∧ resp.resultado = extractReply ret ∧
      tr.queryCalls = [queryMessageOf q (files.map (mkProc env))] ∧
      tr.summaryCalls = [] :=
  ⟨_, _, analisar_query_spec env insertOne files q request_id user_id ret hall hm ha,
    rfl, rfl, rfl, rfl⟩

/-- C1 witness: a concrete one-file query request. -/
theorem C1_witness :
    ∃ resp tr, analisar_curriculo envW insertOkW [filePdfW]
        (some "Quem tem mais experiência?") none "u1" = (.ok resp, tr) ∧
      resp.query = "Quem tem mais experiência?" ∧
      resp.resultado = extractReply (.messages ["RespostaW"]) ∧
      tr.queryCalls = [queryMessageOf "Quem tem mais experiência?"
        ([filePdfW].map (mkProc envW))] ∧
      tr.summaryCalls = [] :=
  C1_query_mode envW insertOkW [filePdfW] "Quem tem mais experiência?" none "u1"
    (.messages ["RespostaW"]) (by decide) (by decide) rfl

/-- C2: summary mode is selected exactly when the query is absent, blank after
trimming, or case-insensitively the literal "string"; in that case the
response's `query` field is the sentinel and the result text is the newline
join of one framed banner section per uploaded file, in submission order. -/
theorem C2_summary_mode (env : Env) (insertOne : LogEntry → Except String Unit)
    (files : List UploadedFile) (query : Option String) (request_id : Option String)
    (user_id : String) (replies : Processed → AgentRet)
    (hall : ∀ f ∈ files, extAllowedB f.filename = true)
    (hm : deveSumarizarB query = true)
    (hrep : ∀ a ∈ files.map (mkProc env), env.summaryAgent (summaryMsgFor a) = .ok (replies a)) :
    (∀ q' : Option String, deveSumarizarB q' = claimSummaryCondB q') ∧
    ∃ resp tr, analisar_curriculo env insertOne files query request_id user_id = (.ok resp, tr) ∧
      resp.query = sentinelSumarizacao ∧
      resp.resultado = String.intercalate "\n" (sectionsWith replies 1 (files.map (mkProc env))) ∧
      (sectionsWith replies 1 (files.map (mkProc env))).length = files.length := by
  constructor
  · intro q'
    cases q' with
    | none => rfl
    | some q =>
        have hl : lowerStr "string" = "string" := by decide
        simp [deveSumarizarB, claimSummaryCondB, hl]
  · exact ⟨_, _,
      analisar_summary_spec env insertOne files query request_id user_id replies hall hm hrep,
      rfl, rfl, by rw [sectionsWith_length, List.length_map]⟩

/-- C2 witness: a concrete no-query request. -/
theorem C2_witness :
    (∀ q' : Option String, deveSumarizarB q' = claimSummaryCondB q') ∧
    ∃ resp tr, analisar_curriculo envW insertOkW [filePdfW] none none "u1" = (.ok resp, tr) ∧
      resp.query = sentinelSumarizacao ∧
      resp.resultado = String.intercalate "\n"
        (sectionsWith repliesW 1 ([filePdfW].map (mkProc envW))) ∧
      (sectionsWith repliesW 1 ([filePdfW].map (mkProc envW))).length = [filePdfW].length :=
  C2_summary_mode envW insertOkW [filePdfW] none none "u1" repliesW (by decide) rfl
    (fun a _ => rfl)

/-- C3 counterexample: with a valid `a.pdf` submitted before the disallowed
`b.txt`, the endpoint does return the 400 naming `b.txt`, but extraction has
already run on `a.pdf`, refuting "the request aborts before any extraction is
performed on any file". -/
theorem C3_counterexample :
    (analisar_curriculo envW insertOkW [filePdfW, fileBadW] none none "u1").1 =
        .httpError 400 (badExtDetail "b.txt") ∧
      (analisar_curriculo envW insertOkW [filePdfW, fileBadW] none none "u1").2.extracted =
        ["a.pdf"] := by
  constructor <;> decide

/-- C3 (amended): a disallowed extension yields a 400 naming the first
offending filename, no agent invocation and no log write occur, and no
extraction is performed on the offending file or any later file — extraction
has, however, already been performed on every preceding valid file. -/
theorem C3_first_bad (env : Env) (insertOne : LogEntry → Except String Unit)
    (pre : List UploadedFile) (bad : UploadedFile) (rest : List UploadedFile)
    (query : Option String) (request_id : Option String) (user_id : String)
    (hpre : ∀ f ∈ pre, extAllowedB f.filename = true)
    (hbad : extAllowedB bad.filename = false) :
    analisar_curriculo env insertOne (pre ++ bad :: rest) query request_id user_id =
      (.httpError 400 (badExtDetail bad.filename),
       { extracted := pre.map (·.filename), summaryCalls := [], queryCalls := [],
         logAttempts := [] }) :=
  analisar_badext_spec env insertOne pre bad rest query request_id user_id hpre hbad

/-- C3 witness: a concrete three-file request failing on the second file. -/
theorem C3_witness :
    analisar_curriculo envW insertOkW [filePdfW, fileBadW, fileImgW] none none "u1" =
      (.httpError 400 (badExtDetail "b.txt"),
       { extracted := ["a.pdf"], summaryCalls := [], queryCalls := [], logAttempts := [] }) :=
  C3_first_bad envW insertOkW [filePdfW] fileBadW [fileImgW] none none "u1"
    (by decide) (by decide)

/-- C4 counterexample: at a concrete one-file request the produced framed
section carries a leading newline before the first `=`-line, so the result
text differs from the claimed join of sections that start directly with the
60-character `=`-line. -/
theorem C4_counterexample :
    resultadoOf (analisar_curriculo envW insertOkW [filePdfW] none none "u1").1 =
        "\n" ++ claimedSectionFor 1 "a.pdf" "SumarioW" ∧
      resultadoOf (analisar_curriculo envW insertOkW [filePdfW] none none "u1").1 ≠
        String.intercalate "\n" [claimedSectionFor 1 "a.pdf" "SumarioW"] := by
  constructor <;> decide

/-- C4 (amended): each framed section consists of a leading newline, a line
of 60 `=` characters, the line `CURRÍCULO  #i: filename - Sumário`, another
60-`=` line, then the reply and a trailing newline; the sections are joined
with newlines in submission order, and the summary agent is invoked once per
file. -/
theorem C4_banner_format (env : Env) (insertOne : LogEntry → Except String Unit)
    (files : List UploadedFile) (query : Option String) (request_id : Option String)
    (user_id : String) (replies : Processed → AgentRet)
    (hall : ∀ f ∈ files, extAllowedB f.filename = true)
    (hm : deveSumarizarB query = true)
    (hrep : ∀ a ∈ files.map (mkProc env), env.summaryAgent (summaryMsgFor a) = .ok (replies a)) :
    ∃ resp tr, analisar_curriculo env insertOne files query request_id user_id = (.ok resp, tr) ∧
      resp.resultado = String.intercalate "\n" (sectionsWith replies 1 (files.map (mkProc env))) ∧
      (∀ (i : Nat) (fn r : String), sectionFor i fn r =
        "\n" ++ eqLine ++ "\n" ++ "CURRÍCULO  #" ++ toString i ++ ": " ++ fn ++ " - Sumário\n"
          ++ eqLine ++ "\n" ++ r ++ "\n") ∧
      eqLine = ⟨List.replicate 60 '='⟩ ∧
      tr.summaryCalls.length = files.length ∧ tr.queryCalls = [] := by
  refine ⟨_, _,
    analisar_summary_spec env insertOne files query request_id user_id replies hall hm hrep,
    rfl, fun i fn r => rfl, rfl, ?_, rfl⟩
  simp [List.length_map]

/-- C4 witness: a concrete two-file summary request (one PDF, one image whose
OCR fails). -/
theorem C4_witness :
    ∃ resp tr, analisar_curriculo envW insertOkW [filePdfW, fileImgW] none none "u1" =
        (.ok resp, tr) ∧
      resp.resultado = String.intercalate "\n"
        (sectionsWith repliesW 1 ([filePdfW, fileImgW].map (mkProc envW))) ∧
      (∀ (i : Nat) (fn r : String), sectionFor i fn r =
        "\n" ++ eqLine ++ "\n" ++ "CURRÍCULO  #" ++ toString i ++ ": " ++ fn ++ " - Sumário\n"
          ++ eqLine ++ "\n" ++ r ++ "\n") ∧
      eqLine = ⟨List.replicate 60 '='⟩ ∧
      tr.summaryCalls.length = [filePdfW, fileImgW].length ∧ tr.queryCalls = [] :=
  C4_banner_format envW insertOkW [filePdfW, fileImgW] none none "u1" repliesW
    (by decide) rfl (fun a _ => rfl)

/-- C5: the response's request id is the canonical form of the parsed UUID
when the caller's string parses; a deterministic name-based UUID of the
string otherwise; the freshly drawn random UUID when absent — and in all
cases a valid UUID string. -/
theorem C5_request_id (env : Env)
    (hrand : env.randomUUID < 2 ^ 128) (h5 : ∀ s, env.uuid5fn s < 2 ^ 128) :
    (∀ (s : String) (n : Nat), pyUUIDparse s = some n →
      resolveRequestUuid env (some s) = n) ∧
    (∀ s : String, pyUUIDparse s = none →
      resolveRequestUuid env (some s) = env.uuid5fn s) ∧
    resolveRequestUuid env none = env.randomUUID ∧
    (∀ env' : Env, env'.uuid5fn = env.uuid5fn → ∀ s : String, pyUUIDparse s = none →
      resolveRequestUuid env' (some s) = resolveRequestUuid env (some s)) ∧
    (∀ request_id : Option String,
      (pyUUIDparse (uuidToString (resolveRequestUuid env request_id))).isSome = true) ∧
    (∀ (insertOne : LogEntry → Except String Unit) (files : List UploadedFile)
        (query : Option String) (request_id : Option String) (user_id : String)
        (resp : Response) (tr : Trace),
      analisar_curriculo env insertOne files query request_id user_id = (.ok resp, tr) →
      resp.request_id = uuidToString (resolveRequestUuid env request_id)) := by
  refine ⟨?_, ?_, rfl, ?_, ?_, ?_⟩
  · intro s n h; simp [resolveRequestUuid, h]
  · intro s h; simp [resolveRequestUuid, h]
  · intro env' he s h; simp [resolveRequestUuid, h, he]
  · intro request_id
    have hres : resolveRequestUuid env request_id < 2 ^ 128 := by
      cases request_id with
      | none => exact hrand
      | some s =>
          cases hp : pyUUIDparse s with
          | none => simpa [resolveRequestUuid, hp] using h5 s
          | some n => simpa [resolveRequestUuid, hp] using pyUUIDparse_lt s n hp
    rw [pyUUIDparse_uuidToString _ hres]
    rfl
  · intro insertOne files query request_id user_id resp tr h
    exact analisar_ok_request_id env insertOne files query request_id user_id resp tr h

/-- C5 witness: the name-based branch at a concrete non-UUID string and the
validity of the canonical form of the random-UUID branch. -/
theorem C5_witness :
    resolveRequestUuid envW (some "abc") = envW.uuid5fn "abc" ∧
    resolveRequestUuid envW none = envW.randomUUID ∧
    (pyUUIDparse (uuidToString (resolveRequestUuid envW none))).isSome = true := by
  have h := C5_request_id envW (by decide) (fun _ => (by decide : (7 : Nat) < 2 ^ 128))
  exact ⟨h.2.1 "abc" (by decide), h.2.2.1, h.2.2.2.2.1 none⟩

/-- C6: a document with blank extracted text and an image extension is sent
as a base64 image content part with the matching mime type plus a fixed
instruction text part, in both modes; every other document is sent as its
extracted text. -/
theorem C6_payload (env : Env) (insertOne : LogEntry → Except String Unit)
    (files : List UploadedFile) (query : Option String) (request_id : Option String)
    (user_id : String) (replies : Processed → AgentRet)
    (hall : ∀ f ∈ files, extAllowedB f.filename = true)
    (hm : deveSumarizarB query = true)
    (hrep : ∀ a ∈ files.map (mkProc env), env.summaryAgent (summaryMsgFor a) = .ok (replies a)) :
    (analisar_curriculo env insertOne files query request_id user_id).2.summaryCalls =
        (files.map (mkProc env)).map summaryMsgFor ∧
    (∀ arq : Processed, (ocrFalhouB arq.texto && imageExts.contains arq.extensao) = true →
      summaryMsgFor arq = { role := "user", content := .parts [.text instrSummaryImage,
        .image_url ("data:" ++ mimeFor arq.extensao ++ ";base64,"
          ++ ⟨base64Encode arq.bytes_originais⟩)] }) ∧
    (∀ arq : Processed, (ocrFalhouB arq.texto && imageExts.contains arq.extensao) = false →
      summaryMsgFor arq = { role := "user", content := .str arq.texto }) ∧
    (mimeFor ".jpg" = "image/jpeg" ∧ mimeFor ".jpeg" = "image/jpeg" ∧
      mimeFor ".png" = "image/png") ∧
    (∀ (i : Nat) (arq : Processed),
      (ocrFalhouB arq.texto && imageExts.contains arq.extensao) = true →
      querySegFor i arq = [.text (queryHeaderFor i arq.filename), .text instrQueryImage,
        .image_url (dataUrlFor arq.extensao arq.bytes_originais)]) ∧
    (∀ (i : Nat) (arq : Processed),
      (ocrFalhouB arq.texto && imageExts.contains arq.extensao) = false →
      querySegFor i arq = [.text (queryHeaderFor i arq.filename),
        .text (arq.texto ++ "\n")]) := by
  refine ⟨?_, ?_, ?_, ⟨rfl, rfl, rfl⟩, ?_, ?_⟩
  · rw [analisar_summary_spec env insertOne files query request_id user_id replies hall hm hrep]
  · intro arq h
    unfold summaryMsgFor
    rw [h]
    simp [dataUrlFor]
  · intro arq h
    unfold summaryMsgFor
    rw [h]
    simp
  · intro i arq h
    unfold querySegFor
    rw [h]
    simp
  · intro i arq h
    unfold querySegFor
    rw [h]
    simp

/-- C6 witness: the image-fallback payload at a concrete OCR-failed PNG, and
the text payload at a concrete extracted PDF. -/
theorem C6_witness :
    summaryMsgFor (mkProc envW fileImgW) = Message.mk "user"
      (.parts [.text instrSummaryImage,
        .image_url ("data:" ++ mimeFor (mkProc envW fileImgW).extensao ++ ";base64,"
          ++ ⟨base64Encode (mkProc envW fileImgW).bytes_originais⟩)]) ∧
    summaryMsgFor (mkProc envW filePdfW) = Message.mk "user"
      (.str (mkProc envW filePdfW).texto) := by
  have h := C6_payload envW insertOkW [fileImgW] none none "u1" repliesW (by decide) rfl
    (fun a _ => rfl)
  exact ⟨h.2.1 (mkProc envW fileImgW) (by decide), h.2.2.1 (mkProc envW filePdfW) (by decide)⟩

/-- C7: text extraction is total; PDFs yield the page texts joined by
newlines and stripped, or an error placeholder on parse failure; image
failures yield the empty string; Word files always yield the fixed
placeholder; any other extension yields the unsupported-type placeholder. -/
theorem C7_extraction (env : Env) (filename : String) (b : List Nat) :
    (get_file_extension filename = ".pdf" →
      (∀ pages, env.pdfParse b = .ok pages →
        processar_arquivo env filename b = pyStrip (joinBetweenNl pages)) ∧
      (∀ e, env.pdfParse b = .error e →
        processar_arquivo env filename b = "[Erro ao processar PDF: " ++ e ++ "]")) ∧
    (imageExts.contains (get_file_extension filename) = true →
      ∀ e, env.ocr b = .error e → processar_arquivo env filename b = "") ∧
    ((get_file_extension filename = ".doc" ∨ get_file_extension filename = ".docx") →
      processar_arquivo env filename b = "[Processamento de arquivos Word em desenvolvimento]") ∧
    (get_file_extension filename ≠ ".pdf" →
      imageExts.contains (get_file_extension filename) = false →
      get_file_extension filename ≠ ".doc" → get_file_extension filename ≠ ".docx" →
      processar_arquivo env filename b =
        "[Tipo de arquivo não suportado para extração de texto]") := by
  refine ⟨?_, ?_, ?_, ?_⟩
  · intro hpdf
    constructor
    · intro pages hp
      have : processar_arquivo env filename b = extrair_texto_pdf env b := by
        simp [processar_arquivo, hpdf]
      rw [this, extrair_pdf_ok env b pages hp]
    · intro e hp
      simp [processar_arquivo, hpdf, extrair_texto_pdf, hp]
  · intro himg e he
    have hne : get_file_extension filename ≠ ".pdf" := by
      intro hcon
      rw [hcon] at himg
      exact absurd himg (by decide)
    have himg' : get_file_extension filename ∈ imageExts := by simpa using himg
    have hred : processar_arquivo env filename b = extrair_texto_imagem env b := by
      simp [processar_arquivo, hne, himg']
    rw [hred]
    unfold extrair_texto_imagem
    rw [he]
  · intro hdoc
    rcases hdoc with hd | hd
    · have h1 : get_file_extension filename ≠ ".pdf" := by rw [hd]; decide
      have h2 : (".doc" : String) ∉ imageExts := by decide
      simp [processar_arquivo, h1, hd, h2]
    · have h1 : get_file_extension filename ≠ ".pdf" := by rw [hd]; decide
      have h2 : (".docx" : String) ∉ imageExts := by decide
      simp [processar_arquivo, h1, hd, h2]
  · intro h1 h2 h3 h4
    have h2' : get_file_extension filename ∉ imageExts := by simpa using h2
    simp [processar_arquivo, h1, h2', h3, h4]

/-- C7 witness: concrete extractions covering all four dispatch branches
(PDF success, image OCR failure, Word placeholder, unsupported type). -/
theorem C7_witness :
    processar_arquivo envW "x.pdf" [9] = pyStrip (joinBetweenNl ["Texto do PDF"]) ∧
    processar_arquivo envW "x.PNG" [9] = "" ∧
    processar_arquivo envW "x.docx" [9] =
      "[Processamento de arquivos Word em desenvolvimento]" ∧
    processar_arquivo envW "x.rar" [9] =
      "[Tipo de arquivo não suportado para extração de texto]" := by
  have h1 := C7_extraction envW "x.pdf" [9]
  have h2 := C7_extraction envW "x.PNG" [9]
  have h3 := C7_extraction envW "x.docx" [9]
  have h4 := C7_extraction envW "x.rar" [9]
  exact ⟨(h1.1 (by decide)).1 ["Texto do PDF"] rfl,
    h2.2.1 (by decide) "ocr indisponivel" rfl,
    h3.2.2.1 (Or.inr (by decide)),
    h4.2.2.2 (by decide) (by decide) (by decide) (by decide)⟩

/-- C8: any agent failure after validation — in query mode or in summary
mode, the two exception sources of the handler body — is wrapped into a 500
whose detail embeds the message, after a best-effort error log record
(status "error", result `Erro: {message}`, actual request id / user id /
file count); a validation failure (bad extension) propagates as its original
400 with no error log and no 500 wrapping. -/
theorem C8_error_paths (env : Env) (insertOne : LogEntry → Except String Unit)
    (files : List UploadedFile) (q : String) (request_id : Option String)
    (user_id e : String)
    (hall : ∀ f ∈ files, extAllowedB f.filename = true)
    (hm : deveSumarizarB (some q) = false)
    (ha : env.queryAgent (queryMessageOf q (files.map (mkProc env))) = .error e) :
    analisar_curriculo env insertOne files (some q) request_id user_id =
      (.httpError 500 ("Erro ao processar requisição: " ++ e),
       { extracted := files.map (·.filename), summaryCalls := [],
         queryCalls := [queryMessageOf q (files.map (mkProc env))],
         logAttempts := [(errorEntryOf env request_id user_id q e files.length,
           exceptOkB (insertOne (errorEntryOf env request_id user_id q e files.length)))] }) ∧
    (errorEntryOf env request_id user_id q e files.length).status = "error" ∧
    (errorEntryOf env request_id user_id q e files.length).resultado =
      pyTake 500 ("Erro: " ++ e) ∧
    (∀ (pre : List UploadedFile) (bad : UploadedFile) (rest : List UploadedFile)
        (q2 : Option String) (r2 : Option String) (u2 : String),
      (∀ f ∈ pre, extAllowedB f.filename = true) → extAllowedB bad.filename = false →
      analisar_curriculo env insertOne (pre ++ bad :: rest) q2 r2 u2 =
        (.httpError 400 (badExtDetail bad.filename),
         { extracted := pre.map (·.filename), summaryCalls := [], queryCalls := [],
           logAttempts := [] })) ∧
    (∀ (fs : List UploadedFile) (qu : Option String) (rid : Option String)
        (uid e2 : String) (calls : List Message),
      (∀ f ∈ fs, extAllowedB f.filename = true) → deveSumarizarB qu = true →
      runSummaries env 1 (fs.map (mkProc env)) = (.error e2, calls) →
      analisar_curriculo env insertOne fs qu rid uid =
        (.httpError 500 ("Erro ao processar requisição: " ++ e2),
         { extracted := fs.map (·.filename), summaryCalls := calls, queryCalls := [],
           logAttempts := [(errorEntryOf env rid uid (queryParaLog qu) e2 fs.length,
             exceptOkB (insertOne
               (errorEntryOf env rid uid (queryParaLog qu) e2 fs.length)))] })) :=
  ⟨analisar_query_err_spec env insertOne files q request_id user_id e hall hm ha,
    rfl, rfl,
    fun pre bad rest q2 r2 u2 hp hb =>
      analisar_badext_spec env insertOne pre bad rest q2 r2 u2 hp hb,
    fun fs qu rid uid e2 calls hfs hqu hrs =>
      analisar_summary_err_spec env insertOne fs qu rid uid e2 calls hfs hqu hrs⟩

/-- C8 witness: concrete agent failures in query mode and in summary mode,
each yielding the wrapped 500 and error log record. -/
theorem C8_witness :
    analisar_curriculo envFailBW insertOkW [filePdfW] (some "Pergunta?") none "u1" =
      (.httpError 500 ("Erro ao processar requisição: " ++ "Connection timeout"),
       { extracted := ["a.pdf"], summaryCalls := [],
         queryCalls := [queryMessageOf "Pergunta?" ([filePdfW].map (mkProc envFailBW))],
         logAttempts := [(errorEntryOf envFailBW none "u1" "Pergunta?" "Connection timeout" 1,
           exceptOkB (insertOkW
             (errorEntryOf envFailBW none "u1" "Pergunta?" "Connection timeout" 1)))] }) ∧
    analisar_curriculo envFailBW insertOkW [filePdfW] none none "u1" =
      (.httpError 500 ("Erro ao processar requisição: " ++ "Connection timeout"),
       { extracted := ["a.pdf"],
         summaryCalls := [summaryMsgFor (mkProc envFailBW filePdfW)], queryCalls := [],
         logAttempts := [(errorEntryOf envFailBW none "u1" (queryParaLog none)
             "Connection timeout" 1,
           exceptOkB (insertOkW (errorEntryOf envFailBW none "u1" (queryParaLog none)
             "Connection timeout" 1)))] }) := by
  have h := C8_error_paths envFailBW insertOkW [filePdfW] "Pergunta?" none "u1"
    "Connection timeout" (by decide) (by decide) rfl
  exact ⟨h.1, h.2.2.2.2 [filePdfW] none none "u1" "Connection timeout"
    [summaryMsgFor (mkProc envFailBW filePdfW)] (by decide) rfl rfl⟩

/-- C9: the stored log record truncates the result text to its first 500
characters and timestamps UTC-now minus a fixed three hours, and the HTTP
result never depends on whether the log sink succeeds or fails. -/
theorem C9_log_sink (env : Env) (files : List UploadedFile) (query : Option String)
    (request_id : Option String) (user_id : String) (replies : Processed → AgentRet)
    (insert1 : LogEntry → Except String Unit)
    (hall : ∀ f ∈ files, extAllowedB f.filename = true)
    (hm : deveSumarizarB query = true)
    (hrep : ∀ a ∈ files.map (mkProc env), env.summaryAgent (summaryMsgFor a) = .ok (replies a)) :
    (∀ (i1 i2 : LogEntry → Except String Unit) (fs : List UploadedFile)
        (qu : Option String) (rid : Option String) (uid : String),
      (analisar_curriculo env i1 fs qu rid uid).1 =
        (analisar_curriculo env i2 fs qu rid uid).1) ∧
    ∃ resp tr, analisar_curriculo env insert1 files query request_id user_id = (.ok resp, tr) ∧
      ∃ b, tr.logAttempts = [(mkLogEntry env.nowUtc resp.request_id user_id resp.query
          resp.resultado files.length "success", b)] ∧
        (mkLogEntry env.nowUtc resp.request_id user_id resp.query resp.resultado
          files.length "success").resultado = pyTake 500 resp.resultado ∧
        (mkLogEntry env.nowUtc resp.request_id user_id resp.query resp.resultado
          files.length "success").timestamp = env.nowUtc - 3 * 3600 := by
  constructor
  · intro i1 i2 fs qu rid uid
    unfold analisar_curriculo
    rcases analisarCore env fs qu rid uid with ⟨r, tc, es⟩
    rfl
  · exact ⟨_, _,
      analisar_summary_spec env insert1 files query request_id user_id replies hall hm hrep,
      exceptOkB (insert1 (successEntryOf env request_id user_id sentinelSumarizacao
        (String.intercalate "\n" (sectionsWith replies 1 (files.map (mkProc env))))
        files.length)), rfl, rfl, rfl⟩

/-- C9 witness: a failing sink and a succeeding sink produce the same HTTP
result at a concrete request. -/
theorem C9_witness :
    (analisar_curriculo envW insertFailW [filePdfW] none none "u1").1 =
      (analisar_curriculo envW insertOkW [filePdfW] none none "u1").1 :=
  (C9_log_sink envW [filePdfW] none none "u1" repliesW insertFailW
    (by decide) rfl (fun a _ => rfl)).1 insertFailW insertOkW [filePdfW] none none "u1"

/-- C10: the sentinel comparison trims the query before matching — any query
whose trimmed form equals "string" case-insensitively selects summary mode
and is replaced by the sentinel in the response's query field. -/
theorem C10_trim_sentinel (env : Env) (insertOne : LogEntry → Except String Unit)
    (files : List UploadedFile) (q : String) (request_id : Option String) (user_id : String)
    (replies : Processed → AgentRet)
    (hall : ∀ f ∈ files, extAllowedB f.filename = true)
    (hq : lowerStr (pyStrip q) = "string")
    (hrep : ∀ a ∈ files.map (mkProc env), env.summaryAgent (summaryMsgFor a) = .ok (replies a)) :
    deveSumarizarB (some q) = true ∧
    queryParaLog (some q) = sentinelSumarizacao ∧
    ∃ resp tr, analisar_curriculo env insertOne files (some q) request_id user_id =
        (.ok resp, tr) ∧ resp.query = sentinelSumarizacao := by
  have hm : deveSumarizarB (some q) = true := by simp [deveSumarizarB, hq]
  exact ⟨hm, queryParaLog_of_sum _ hm,
    ⟨_, _, analisar_summary_spec env insertOne files (some q) request_id user_id replies
      hall hm hrep, rfl⟩⟩

/-- C10 witness: the raw query `"  STRING  "` is neither blank nor the exact
literal, yet summary mode is selected and the sentinel echoed. -/
theorem C10_witness :
    deveSumarizarB (some "  STRING  ") = true ∧
    queryParaLog (some "  STRING  ") = sentinelSumarizacao ∧
    "  STRING  " ≠ "" ∧ "  STRING  " ≠ "string" ∧
    (∃ resp tr, analisar_curriculo envW insertOkW [filePdfW] (some "  STRING  ") none "u1" =
        (.ok resp, tr) ∧ resp.query = sentinelSumarizacao) := by
  have h := C10_trim_sentinel envW insertOkW [filePdfW] "  STRING  " none "u1" repliesW
    (by decide) (by decide) (fun a _ => rfl)
  exact ⟨h.1, h.2.1, by decide, by decide, h.2.2⟩

end CurriculoApi
